import Mathlib

/-!
Shallow embedding of `src/main.py` (JKPAY payment-initiation bridge).

The repository is a Flask app; we embed the pure content of its handlers:
Python/JSON values become the mutual inductive `JVal`/`JObj`, Python dicts
become `JObj` association lists with unique keys (first-binding lookup,
replace-or-append update, which coincides with dict semantics when keys are
unique, as `dict` guarantees), module state (`orders`) is passed explicitly,
and the two outbound network calls (payment gateway, Google-Script sink) are
abstract parameters / recorded effects.  Floating-point JSON numbers are
outside the model (`JVal` has only integers); no claim depends on them.
-/

namespace JKPAY

mutual
/-- JSON/Python values as exchanged by the handlers: null, booleans,
(unbounded) integers, strings, arrays and objects.  Objects keep insertion
order, like Python dicts. -/
inductive JVal : Type where
  | null : JVal
  | bool : Bool → JVal
  | int : Int → JVal
  | str : String → JVal
  | arr : JArr → JVal
  | obj : JObj → JVal
deriving DecidableEq

inductive JArr : Type where
  | nil : JArr
  | cons : JVal → JArr → JArr
deriving DecidableEq

inductive JObj : Type where
  | nil : JObj
  | cons : String → JVal → JObj → JObj
deriving DecidableEq
end

/-- First-binding lookup, i.e. `d[k]` / `k in d` / `d.get(k)` on a dict. -/
def lookupJ : JObj → String → Option JVal
  | .nil, _ => none
  | .cons k v rest, key => if k = key then some v else lookupJ rest key

/-- `k in d`. -/
def hasKeyJ (d : JObj) (k : String) : Bool := (lookupJ d k).isSome

/-- `d[k] = v` on a dict: overwrite the (unique) existing binding in place,
else append a new binding at the end — Python dict assignment order. -/
def setKey : JObj → String → JVal → JObj
  | .nil, k, v => .cons k v .nil
  | .cons k' v' rest, k, v =>
      if k' = k then .cons k' v rest else .cons k' v' (setKey rest k v)

/-- Append one binding at the end (used to build fresh dicts in order). -/
def pushKey : JObj → String → JVal → JObj
  | .nil, k, v => .cons k v .nil
  | .cons k' v' rest, k, v => .cons k' v' (pushKey rest k v)

def jobjLen : JObj → Nat
  | .nil => 0
  | .cons _ _ rest => jobjLen rest + 1

/-- Python truthiness on these values: `None`, `False`, `0`, `""`, `[]`,
`{}` are falsy, everything else truthy. -/
def pyTruthy : JVal → Bool
  | .null => false
  | .bool b => b
  | .int n => n != 0
  | .str s => s ≠ ""
  | .arr .nil => false
  | .arr (.cons _ _) => true
  | .obj .nil => false
  | .obj (.cons _ _ _) => true

mutual
/-- Python `==` on these values.  Numerically, `bool` is a subtype of `int`
(`False == 0`, `True == 1`); strings compare to strings only; lists compare
elementwise; dicts compare as key→value maps, insertion order ignored
(same length and every binding of the left dict matched in the right one,
which with unique keys is exactly dict equality). -/
def pyEq : JVal → JVal → Bool
  | .null, .null => true
  | .bool a, .bool b => a == b
  | .bool a, .int b => (if a then (1 : Int) else 0) == b
  | .int a, .bool b => a == (if b then (1 : Int) else 0)
  | .int a, .int b => a == b
  | .str a, .str b => a == b
  | .arr a, .arr b => pyEqArr a b
  | .obj a, .obj b => jobjLen a == jobjLen b && pyEqObj a b
  | _, _ => false

def pyEqArr : JArr → JArr → Bool
  | .nil, .nil => true
  | .cons x xs, .cons y ys => pyEq x y && pyEqArr xs ys
  | _, _ => false

def pyEqObj : JObj → JObj → Bool
  | .nil, _ => true
  | .cons k v rest, b =>
      (match lookupJ b k with
       | some w => pyEq v w
       | none => false) && pyEqObj rest b
end

/-- Characters Python's `int(str)` strips around the literal (`str.strip`
whitespace; we model the ASCII whitespace characters). -/
def isPySpace (c : Char) : Bool :=
  c = ' ' || c = '\t' || c = '\n' || c = '\x0d' || c = '\x0b' || c = '\x0c'

def digitVal (c : Char) : Option Nat :=
  if '0' ≤ c ∧ c ≤ '9' then some (c.toNat - '0'.toNat) else none

def parseDigits : List Char → Option Nat
  | [] => none
  | cs => cs.foldl (fun acc c => match acc, digitVal c with
      | some n, some d => some (n * 10 + d)
      | _, _ => none) (some 0)

/-- Python `int(s)` on a string: optional surrounding whitespace, optional
sign, then a non-empty run of decimal digits.  (Python additionally accepts
underscore digit separators and non-ASCII digits; not modelled, no claim
touches them.) -/
def parseIntStr (s : String) : Option Int :=
  let cs := (s.toList.dropWhile isPySpace).reverse.dropWhile isPySpace |>.reverse
  match cs with
  | '+' :: rest => if rest = [] then none else (parseDigits rest).map Int.ofNat
  | '-' :: rest => if rest = [] then none else (parseDigits rest).map (fun n => -(Int.ofNat n))
  | rest => if rest = [] then none else (parseDigits rest).map Int.ofNat

/-- Python `int(v)`: ints pass through, bools become 0/1, strings are parsed,
everything else raises (`none`).  (Floats, which `int` would truncate, are
outside the value model.) -/
def pyInt : JVal → Option Int
  | .int n => some n
  | .bool b => some (if b then 1 else 0)
  | .str s => parseIntStr s
  | _ => none

def hexDigitChar (n : Nat) : Char :=
  if n < 10 then Char.ofNat (48 + n) else Char.ofNat (87 + n)

/-- `n` as `k` lowercase hex digits, big-endian (zero padded). -/
def natToHexBE (k n : Nat) : String :=
  ((List.range k).map (fun i => hexDigitChar (n / 16 ^ (k - 1 - i) % 16))).asString

/-- The escaped body of a JSON string under Python `json.dumps` with
`ensure_ascii=False`: `"` and `\` get a backslash, the five short control
escapes are used for 0x08/0x09/0x0a/0x0c/0x0d, other control characters
below 0x20 become `\u00xx`, and everything else (non-ASCII included) is
emitted literally. -/
def jsonEscapeChar (c : Char) : List Char :=
  if c = '"' then ['\\', '"']
  else if c = '\\' then ['\\', '\\']
  else if c = '\x08' then ['\\', 'b']
  else if c = '\t' then ['\\', 't']
  else if c = '\n' then ['\\', 'n']
  else if c = '\x0c' then ['\\', 'f']
  else if c = '\x0d' then ['\\', 'r']
  else if c.toNat < 32 then '\\' :: 'u' :: (natToHexBE 4 c.toNat).toList
  else [c]

def jsonQuote (s : String) : String :=
  "\"" ++ ((s.toList.map jsonEscapeChar).flatten).asString ++ "\""

mutual
/-- `json.dumps(v, separators=(",", ":"), ensure_ascii=False)`: compact JSON,
object keys in insertion order (no `sort_keys`), non-ASCII kept literal. -/
def dumps : JVal → String
  | .null => "null"
  | .bool b => if b then "true" else "false"
  | .int n => toString n
  | .str s => jsonQuote s
  | .arr a => "[" ++ dumpsArr a ++ "]"
  | .obj o => "\x7b" ++ dumpsObj o ++ "\x7d"

def dumpsArr : JArr → String
  | .nil => ""
  | .cons v .nil => dumps v
  | .cons v rest@(.cons _ _) => dumps v ++ "," ++ dumpsArr rest

def dumpsObj : JObj → String
  | .nil => ""
  | .cons k v .nil => jsonQuote k ++ ":" ++ dumps v
  | .cons k v rest@(.cons _ _ _) => jsonQuote k ++ ":" ++ dumps v ++ "," ++ dumpsObj rest
end

/-- UTF-8 encoding of one Unicode scalar value, as byte values. -/
def utf8Char (n : Nat) : List Nat :=
  if n < 128 then [n]
  else if n < 2048 then [192 + n / 64, 128 + n % 64]
  else if n < 65536 then [224 + n / 4096, 128 + n / 64 % 64, 128 + n % 64]
  else [240 + n / 262144, 128 + n / 4096 % 64, 128 + n / 64 % 64, 128 + n % 64]

/-- `s.encode("utf-8")` as a list of byte values. -/
def utf8Bytes (s : String) : List Nat :=
  (s.toList.map (fun c => utf8Char c.toNat)).flatten

/-! ### SHA-256 and HMAC (FIPS 180-4 / RFC 2104), on byte lists

Words are `Nat` kept below `2 ^ 32` by explicit `% 2 ^ 32` at every
addition; rotations are the arithmetic split (exact for words `< 2 ^ 32`).
This embeds `hashlib.sha256` / `hmac.new(·,·,hashlib.sha256).hexdigest()`. -/

def M32 : Nat := 4294967296

def rotr32 (s a : Nat) : Nat := a / 2 ^ s + a % 2 ^ s * 2 ^ (32 - s)

def shr32 (s a : Nat) : Nat := a / 2 ^ s

def not32 (a : Nat) : Nat := 4294967295 - a

def bigSigma0 (a : Nat) : Nat := rotr32 2 a ^^^ rotr32 13 a ^^^ rotr32 22 a

def bigSigma1 (e : Nat) : Nat := rotr32 6 e ^^^ rotr32 11 e ^^^ rotr32 25 e

def smallSigma0 (x : Nat) : Nat := rotr32 7 x ^^^ rotr32 18 x ^^^ shr32 3 x

def smallSigma1 (x : Nat) : Nat := rotr32 17 x ^^^ rotr32 19 x ^^^ shr32 10 x

def chFun (e f g : Nat) : Nat := (e &&& f) ^^^ (not32 e &&& g)

def majFun (a b c : Nat) : Nat := (a &&& b) ^^^ (a &&& c) ^^^ (b &&& c)

def sha256K : List Nat := [
  1116352408, 1899447441, 3049323471, 3921009573, 961987163, 1508970993, 2453635748, 2870763221,
  3624381080, 310598401, 607225278, 1426881987, 1925078388, 2162078206, 2614888103, 3248222580,
  3835390401, 4022224774, 264347078, 604807628, 770255983, 1249150122, 1555081692, 1996064986,
  2554220882, 2821834349, 2952996808, 3210313671, 3336571891, 3584528711, 113926993, 338241895,
  666307205, 773529912, 1294757372, 1396182291, 1695183700, 1986661051, 2177026350, 2456956037,
  2730485921, 2820302411, 3259730800, 3345764771, 3516065817, 3600352804, 4094571909, 275423344,
  430227734, 506948616, 659060556, 883997877, 958139571, 1322822218, 1537002063, 1747873779,
  1955562222, 2024104815, 2227730452, 2361852424, 2428436474, 2756734187, 3204031479, 3329325298]

def sha256H0 : List Nat :=
  [1779033703, 3144134277, 1013904242, 2773480762, 1359893119, 2600822924, 528734635, 1541459225]

/-- Merkle–Damgård padding: `0x80`, zeros to 56 mod 64, 64-bit big-endian
bit length. -/
def padBytes (msg : List Nat) : List Nat :=
  let L := msg.length
  let z := (119 - L % 64) % 64
  msg ++ [128] ++ List.replicate z 0
      ++ (List.range 8).map (fun i => 8 * L / 2 ^ (8 * (7 - i)) % 256)

/-- The 16 big-endian 32-bit words of one 64-byte block. -/
def wordsOfBlock (b : List Nat) : List Nat :=
  (List.range 16).map (fun i =>
    b.getD (4 * i) 0 * 16777216 + b.getD (4 * i + 1) 0 * 65536
      + b.getD (4 * i + 2) 0 * 256 + b.getD (4 * i + 3) 0)

/-- Message-schedule extension of the 16 block words to 64 words. -/
def extendSchedule (w16 : List Nat) : List Nat :=
  (List.range 48).foldl (fun w _ =>
    w ++ [(smallSigma1 (w.getD (w.length - 2) 0) + w.getD (w.length - 7) 0
            + smallSigma0 (w.getD (w.length - 15) 0) + w.getD (w.length - 16) 0) % M32]) w16

/-- One SHA-256 compression step over a 64-byte block. -/
def compressBlock (h : List Nat) (block : List Nat) : List Nat :=
  let w := extendSchedule (wordsOfBlock block)
  let s := (List.range 64).foldl
    (fun (s : Nat × Nat × Nat × Nat × Nat × Nat × Nat × Nat) i =>
      let t1 := (s.2.2.2.2.2.2.2 + bigSigma1 s.2.2.2.2.1 + chFun s.2.2.2.2.1 s.2.2.2.2.2.1 s.2.2.2.2.2.2.1
                  + sha256K.getD i 0 + w.getD i 0) % M32
      let t2 := (bigSigma0 s.1 + majFun s.1 s.2.1 s.2.2.1) % M32
      ((t1 + t2) % M32, s.1, s.2.1, s.2.2.1, (s.2.2.2.1 + t1) % M32,
        s.2.2.2.2.1, s.2.2.2.2.2.1, s.2.2.2.2.2.2.1))
    (h.getD 0 0, h.getD 1 0, h.getD 2 0, h.getD 3 0,
     h.getD 4 0, h.getD 5 0, h.getD 6 0, h.getD 7 0)
  [(h.getD 0 0 + s.1) % M32, (h.getD 1 0 + s.2.1) % M32,
   (h.getD 2 0 + s.2.2.1) % M32, (h.getD 3 0 + s.2.2.2.1) % M32,
   (h.getD 4 0 + s.2.2.2.2.1) % M32, (h.getD 5 0 + s.2.2.2.2.2.1) % M32,
   (h.getD 6 0 + s.2.2.2.2.2.2.1) % M32, (h.getD 7 0 + s.2.2.2.2.2.2.2) % M32]

/-- The eight 32-bit state words of SHA-256 over a byte string. -/
def sha256Words (msg : List Nat) : List Nat :=
  let p := padBytes msg
  (List.range (p.length / 64)).foldl
    (fun st i => compressBlock st ((p.drop (64 * i)).take 64)) sha256H0

/-- Big-endian word concatenation (words reduced mod `2 ^ 32`). -/
def wordsToNat (ws : List Nat) : Nat := ws.foldl (fun a w => a * M32 + w % M32) 0

/-- The SHA-256 digest as one 256-bit number. -/
def sha256Nat (msg : List Nat) : Nat := wordsToNat (sha256Words msg)

/-- `n` as `k` big-endian bytes. -/
def natToBytesBE (k n : Nat) : List Nat :=
  (List.range k).map (fun i => n / 2 ^ (8 * (k - 1 - i)) % 256)

/-- `hashlib.sha256(msg).digest()` as a 32-byte list. -/
def sha256Bytes (msg : List Nat) : List Nat := natToBytesBE 32 (sha256Nat msg)

/-- `hmac.new(key, msg, hashlib.sha256)`'s digest as a 256-bit number:
keys longer than the 64-byte block are first hashed, the key is zero-padded
to 64 bytes, and the digest is `H((k ^ opad) || H((k ^ ipad) || msg))`. -/
def hmacSha256Nat (key msg : List Nat) : Nat :=
  let k0 := if 64 < key.length then sha256Bytes key else key
  let kp := k0 ++ List.replicate (64 - k0.length) 0
  sha256Nat (kp.map (fun b => b ^^^ 92) ++ sha256Bytes (kp.map (fun b => b ^^^ 54) ++ msg))

/-- `hmac.new(key, msg, hashlib.sha256).hexdigest()`: 64 lowercase hex
digits of the 256-bit HMAC-SHA256 value. -/
def hmacSha256Hex (key msg : List Nat) : String := natToHexBE 64 (hmacSha256Nat key msg)

/-! ### `generate_signature` (src/main.py lines 67–84) -/

/-- The `ordered_fields` list of `generate_signature`. -/
def orderedFields : List String :=
  ["store_id", "platform_order_id", "currency", "total_price", "final_price",
   "unredeem", "valid_time", "payment_type", "escrow", "products"]

/-- One step of the `ordered_payload` loop: copy the binding when the field
is in the payload (`if field in payload: ordered_payload[field] =
payload[field]`). -/
def opStep (m acc : JObj) (f : String) : JObj :=
  match lookupJ m f with
  | some v => pushKey acc f v
  | none => acc

/-- The `ordered_payload` dict: iterate `ordered_fields` in order, copying a
binding whenever the field is in the payload. -/
def orderedPayload (m : JObj) : JObj :=
  orderedFields.foldl (opStep m) .nil

/-- `generate_signature(payload, secret_key)`: a dict is canonicalized and
compact-serialized, a string is used as-is, anything else raises on
`.encode` (`none`); then HMAC-SHA256 with the UTF-8 secret key, lowercase
hex output. -/
def generate_signature (payload : JVal) (secret_key : String) : Option String :=
  match payload with
  | .obj m =>
      some (hmacSha256Hex (utf8Bytes secret_key)
        (utf8Bytes (dumps (.obj (orderedPayload m)))))
  | .str s => some (hmacSha256Hex (utf8Bytes secret_key) (utf8Bytes s))
  | _ => none

/-- The canonical field list as the spec words it (claim C1). -/
def specCanonicalList : List String :=
  ["store_id", "platform_order_id", "currency", "total_price", "final_price",
   "unredeem", "valid_time", "payment_type", "escrow", "products"]

/-- Spec-side canonical form for claim C1, built from the spec's words:
exactly the fields of the message that appear in the canonical list, emitted
in the list's order, all other fields dropped. -/
def specCanonicalForm (m : JObj) : JObj :=
  (specCanonicalList.filter (fun f => hasKeyJ m f)).foldr
    (fun f acc => .cons f ((lookupJ m f).getD .null) acc) .nil

/-! ### `/generate_payment` (src/main.py lines 102–216) -/

def requiredFields711 : List String :=
  ["totalAmount", "quantity", "name", "email", "phone", "shipping", "payment",
   "storeInfo", "address"]

def requiredFieldsOther : List String :=
  ["totalAmount", "quantity", "name", "email", "phone", "shipping", "payment",
   "city", "district", "address"]

/-- `order_data.get("shipping") == "7-11"`. -/
def shippingIs711 (body : JObj) : Bool :=
  match lookupJ body "shipping" with
  | some v => pyEq v (.str "7-11")
  | none => false

def requiredFieldsFor (body : JObj) : List String :=
  if shippingIs711 body then requiredFields711 else requiredFieldsOther

/-- `[field for field in required_fields if field not in order_data or not
order_data[field]]`. -/
def missingFields (body : JObj) : List String :=
  (requiredFieldsFor body).filter (fun f =>
    match lookupJ body f with
    | some v => !pyTruthy v
    | none => true)

/-- `price = base_price + (1 if i == quantity - 1 else 0) * remainder`,
with Python floor division and modulo. -/
def productPrice (total qty : Int) (i : Nat) : Int :=
  Int.fdiv total qty + (if (i : Int) = qty - 1 then 1 else 0) * Int.fmod total qty

def jarrOfList : List JVal → JArr
  | [] => .nil
  | v :: rest => .cons v (jarrOfList rest)

def jarrToList : JArr → List JVal
  | .nil => []
  | .cons v rest => v :: jarrToList rest

/-- One line item of the `products` loop (src/main.py lines 134–143). -/
def productItem (price : Int) : JVal :=
  .obj (.cons "name" (.str "摩揭陀貓舍 商品") (.cons "unit_count" (.int 1)
    (.cons "unit_price" (.int price) (.cons "unit_final_price" (.int price)
    (.cons "img" (.str "https://example.com/product-image.jpg") .nil)))))

/-- The `products` list: `for i in range(quantity)` with the split pricing. -/
def buildProducts (total qty : Int) : JArr :=
  jarrOfList ((List.range qty.toNat).map (fun i => productItem (productPrice total qty i)))

/-- The unit prices actually carried by the built products. -/
def priceOfItem (v : JVal) : Int :=
  match v with
  | .obj o => match lookupJ o "unit_price" with
              | some (.int n) => n
              | _ => 0
  | _ => 0

def linePrices (total qty : Int) : List Int :=
  (jarrToList (buildProducts total qty)).map priceOfItem

/-- The `data` dict assembled for the gateway (src/main.py lines 153–167). -/
def gpData (storeId pid vt baseUrl : String) (total : Int) (products : JArr) : JObj :=
  .cons "store_id" (.str storeId) (.cons "platform_order_id" (.str pid)
  (.cons "currency" (.str "TWD") (.cons "total_price" (.int total)
  (.cons "final_price" (.int total) (.cons "unredeem" (.int total)
  (.cons "valid_time" (.str vt) (.cons "confirm_url" (.str (baseUrl ++ "/confirm_url"))
  (.cons "result_url" (.str (baseUrl ++ "/result_url"))
  (.cons "result_display_url" (.str (baseUrl ++ "/result_display_url"))
  (.cons "payment_type" (.str "onetime") (.cons "escrow" (.bool false)
  (.cons "products" (.arr products) .nil))))))))))))

/-- Error messages of `/generate_payment`, one constructor per literal
f-string of the handler, carrying the interpolated data. -/
inductive GPMsg : Type where
  /-- "缺少必要的字段: {missing_fields}" — carries the complete list. -/
  | missingReq (fields : List String)
  /-- "totalAmount 和 quantity 必須為正整數" -/
  | notPositive
  /-- "totalAmount 超過允許的最大值" -/
  | overMax
  /-- "不支持的付款方式: {payment_method}" -/
  | unsupportedPayment (v : JVal)
  /-- "無法解析街口支付回應" -/
  | unparseableGwResponse
  /-- "街口支付錯誤: ..." carrying the gateway message, default 未知錯誤. -/
  | gwRejected (msg : JVal)
  /-- "無法生成街口支付連結，狀態碼: {response.status_code}" -/
  | gwHttpError (code : Nat)
  /-- "伺服器錯誤: {e}" — the catch-all `except` at the bottom. -/
  | serverError
deriving DecidableEq

inductive GPBody : Type where
  /-- `jsonify({"paymentUrl": payment_url})` -/
  | paymentUrl (v : JVal)
  /-- `jsonify({"error": ...})` -/
  | error (m : GPMsg)
deriving DecidableEq

/-- The synchronous gateway answer, abstracted: transport status code and
parsed JSON body (`none` = body that `response.json()` rejects). -/
structure GwResp : Type where
  statusCode : Nat
  body : Option JVal
deriving DecidableEq

structure GPResult : Type where
  status : Nat
  body : GPBody
  /-- whether `requests.post(JKO_PAY_ENTRY_URL, ...)` was reached -/
  gatewayCalled : Bool
  /-- the JSON body and DIGEST header of the gateway call, when made -/
  sent : Option (JObj × String)
  newOrders : List JObj
deriving DecidableEq

/-- `/generate_payment`.  `storeId`/`secret`/`baseUrl` are the environment
configuration, `pid`/`vt` the generated `platform_order_id` and
`valid_time` (nondeterministic inputs), `gw` the gateway's answer, `store`
the in-memory `orders` list.  Exceptions (failed `int()`, malformed gateway
body) land in the catch-all `except` → 500. -/
def generate_payment (storeId secret baseUrl : String) (body : JObj)
    (pid vt : String) (gw : GwResp) (store : List JObj) : GPResult :=
  let missing := missingFields body
  if missing ≠ [] then ⟨400, .error (.missingReq missing), false, none, store⟩
  else
    match pyInt ((lookupJ body "totalAmount").getD .null),
          pyInt ((lookupJ body "quantity").getD .null) with
    | some ta, some q =>
      if ta ≤ 0 ∨ q ≤ 0 then ⟨400, .error .notPositive, false, none, store⟩
      else if 1000000 < ta then ⟨400, .error .overMax, false, none, store⟩
      else
        let paymentMethod := (lookupJ body "payment").getD .null
        if ¬ pyEq paymentMethod (.str "jkopay") then
          ⟨400, .error (.unsupportedPayment paymentMethod), false, none, store⟩
        else
          let data := gpData storeId pid vt baseUrl ta (buildProducts ta q)
          let sig := (generate_signature (.obj data) secret).getD ""
          if gw.statusCode = 200 then
            match gw.body with
            | none => ⟨500, .error .unparseableGwResponse, true, some (data, sig), store⟩
            | some (.obj jm) =>
              if pyEq ((lookupJ jm "result").getD .null) (.str "000") then
                match lookupJ jm "result_object" with
                | some (.obj ro) =>
                  match lookupJ ro "payment_url" with
                  | some purl =>
                      let orderToSave :=
                        setKey (setKey body "platform_order_id" (.str pid)) "payment_url" purl
                      ⟨200, .paymentUrl purl, true, some (data, sig), store ++ [orderToSave]⟩
                  | none => ⟨500, .error .serverError, true, some (data, sig), store⟩
                | _ => ⟨500, .error .serverError, true, some (data, sig), store⟩
              else
                ⟨500, .error (.gwRejected ((lookupJ jm "message").getD (.str "未知錯誤"))),
                  true, some (data, sig), store⟩
            | some _ => ⟨500, .error .serverError, true, some (data, sig), store⟩
          else ⟨500, .error (.gwHttpError gw.statusCode), true, some (data, sig), store⟩
    | _, _ => ⟨500, .error .serverError, false, none, store⟩

/-! ### `/confirm_url` (src/main.py lines 218–251) and
`/result_url` (src/main.py lines 253–308) -/

/-- The `for order in orders` scan comparing `order["platform_order_id"]`
(raising `KeyError`, i.e. `.error`, on an entry without the key) against
the callback identifier with Python `==`, stopping at the first match. -/
def findOrder : List JObj → JVal → Except Unit (Option JObj)
  | [], _ => .ok none
  | o :: rest, pid =>
    match lookupJ o "platform_order_id" with
    | none => .error ()
    | some v => if pyEq v pid then .ok (some o) else findOrder rest pid

def validBody (b : Bool) : JVal := .obj (.cons "valid" (.bool b) .nil)

structure CResult : Type where
  status : Nat
  body : JVal
  newOrders : List JObj
deriving DecidableEq

/-- `/confirm_url` (after the IP allow-list): a falsy/absent
`platform_order_id` → 400, an unmatched one → 404, a match → `{valid: true}`;
a scan exception → 500.  The handler never writes the store. -/
def confirm_url (cb : JObj) (store : List JObj) : CResult :=
  let pid := (lookupJ cb "platform_order_id").getD .null
  if ¬ pyTruthy pid then ⟨400, validBody false, store⟩
  else
    match findOrder store pid with
    | .error () => ⟨500, validBody false, store⟩
    | .ok none => ⟨404, validBody false, store⟩
    | .ok (some _) => ⟨200, validBody true, store⟩

def statusMsgBody (s m : String) : JVal :=
  .obj (.cons "status" (.str s) (.cons "message" (.str m) .nil))

/-- `order_data["paymentMethod"] = "jkopay"; order_data["tradeNo"] = trade_no`. -/
def enrich (o : JObj) (tradeNo : JVal) : JObj :=
  setKey (setKey o "paymentMethod" (.str "jkopay")) "tradeNo" tradeNo

/-- `[order for order in orders if order["platform_order_id"] !=
platform_order_id]` — keeps non-matching entries, raises (`.error`) if any
entry lacks the key, in which case `orders[:] = ...` never executes. -/
def removeMatching : List JObj → JVal → Except Unit (List JObj)
  | [], _ => .ok []
  | o :: rest, pid =>
    match lookupJ o "platform_order_id" with
    | none => .error ()
    | some v =>
      match removeMatching rest pid with
      | .error () => .error ()
      | .ok tl => .ok (if pyEq v pid then tl else o :: tl)

/-- The first matching entry is the dict `order_data` aliases, so its
in-place enrichment lands inside `orders`.  (On the paths where it is used
the prefix before the match is known key-complete and non-matching.) -/
def replaceFirstMatch : List JObj → JVal → JObj → List JObj
  | [], _, _ => []
  | o :: rest, pid, o2 =>
    match lookupJ o "platform_order_id" with
    | none => o :: rest
    | some v => if pyEq v pid then o2 :: rest
                else o :: replaceFirstMatch rest pid o2

structure RResult : Type where
  status : Nat
  body : JVal
  newOrders : List JObj
  /-- the bodies POSTed to the Google-Script sink, in order -/
  sinkCalls : List JObj
deriving DecidableEq

/-- `/result_url` (after the IP allow-list).  `sinkFails` abstracts the
outcome of the `requests.post(GOOGLE_SCRIPT_URL, ...)` call, whose failure
the handler swallows (`try`/`except` that only logs). -/
def result_url (cb : JObj) (store : List JObj) (sinkFails : Bool) : RResult :=
  match (lookupJ cb "transaction").getD (.obj .nil) with
  | .obj txm =>
    let pid := (lookupJ txm "platform_order_id").getD .null
    let status := (lookupJ txm "status").getD .null
    let tradeNo := (lookupJ txm "tradeNo").getD .null
    if ¬ pyTruthy pid then ⟨400, statusMsgBody "error" "缺少平台訂單ID", store, []⟩
    else
      match findOrder store pid with
      | .error () => ⟨500, statusMsgBody "error" "伺服器錯誤", store, []⟩
      | .ok none => ⟨404, statusMsgBody "error" "訂單未找到", store, []⟩
      | .ok (some o) =>
        if pyEq status (.int 0) then
          let o2 := enrich o tradeNo
          let store2 := replaceFirstMatch store pid o2
          match removeMatching store2 pid with
          | .error () => ⟨500, statusMsgBody "error" "伺服器錯誤", store2, [o2]⟩
          | .ok store3 => ⟨200, statusMsgBody "success" "支付確認成功", store3, [o2]⟩
        else ⟨400, statusMsgBody "error" "支付確認失敗", store, []⟩
  | _ => ⟨500, statusMsgBody "error" "伺服器錯誤", store, []⟩

/-- Stores reachable in the program: every saved order carries a non-empty
string `platform_order_id` (they are minted as `ORDER_{uuid4}_{time}`). -/
def StrIds (store : List JObj) : Prop :=
  ∀ o ∈ store, ∃ s, s ≠ "" ∧ lookupJ o "platform_order_id" = some (.str s)

/-- Spec-side: the callback identifier resolves to a stored order. -/
def resolves (store : List JObj) (pid : JVal) : Bool :=
  store.any (fun o =>
    match lookupJ o "platform_order_id" with
    | some v => pyEq v pid
    | none => false)

/-- Dict concatenation (fresh keys), for reasoning about `orderedPayload`. -/
def jappend : JObj → JObj → JObj
  | .nil, b => b
  | .cons k v rest, b => .cons k v (jappend rest b)

/-- The canonical form restricted to an arbitrary field list (generalizes
`specCanonicalForm` for induction). -/
def specFold (m : JObj) (fs : List String) : JObj :=
  (fs.filter (fun f => hasKeyJ m f)).foldr
    (fun f a => .cons f ((lookupJ m f).getD .null) a) .nil

/-- The list-comprehension predicate of the removal step: keep an entry
when its identifier differs from the callback's (Python `!=`). -/
def keepB (pid : JVal) (o : JObj) : Bool :=
  match lookupJ o "platform_order_id" with
  | some v => !pyEq v pid
  | none => true

/-! ### Concrete request fixtures used by witnesses and counterexamples -/

/-- A stored pending order with identifier `ORDER_1`. -/
def order1 : JObj :=
  .cons "platform_order_id" (.str "ORDER_1") (.cons "name" (.str "N") .nil)

def tx6 : JObj :=
  .cons "platform_order_id" (.str "ORDER_1")
    (.cons "status" (.int 0) (.cons "tradeNo" (.str "T1") .nil))

/-- A success callback (`status` = integer 0) for `ORDER_1`. -/
def cb6 : JObj := .cons "transaction" (.obj tx6) .nil

def tx7 : JObj :=
  .cons "platform_order_id" (.str "ORDER_1")
    (.cons "status" (.int 3) (.cons "tradeNo" (.str "T1") .nil))

/-- A failure callback (`status` = integer 3) for `ORDER_1`. -/
def cb7 : JObj := .cons "transaction" (.obj tx7) .nil

def txF : JObj :=
  .cons "platform_order_id" (.str "ORDER_1")
    (.cons "status" (.bool false) (.cons "tradeNo" (.str "T1") .nil))

/-- A callback whose `status` is the JSON boolean `false` (not the integer
0). -/
def cbF : JObj := .cons "transaction" (.obj txF) .nil

def txS0 : JObj :=
  .cons "platform_order_id" (.str "ORDER_1")
    (.cons "status" (.str "0") (.cons "tradeNo" (.str "T1") .nil))

/-- A callback whose `status` is the JSON string `"0"`. -/
def cbS0 : JObj := .cons "transaction" (.obj txS0) .nil

/-- A `/confirm_url` payload naming `ORDER_1`. -/
def cb9 : JObj := .cons "platform_order_id" (.str "ORDER_1") .nil

/-- A home-delivery request with every required field present and truthy but
`totalAmount` a non-numeric string. -/
def c4body : JObj :=
  .cons "totalAmount" (.str "A") (.cons "quantity" (.int 1) (.cons "name" (.str "N")
  (.cons "email" (.str "E") (.cons "phone" (.str "P") (.cons "shipping" (.str "HOME")
  (.cons "payment" (.str "jkopay") (.cons "city" (.str "C") (.cons "district" (.str "D")
  (.cons "address" (.str "A1") .nil)))))))))

/-- The same request with `totalAmount = 2000000`, above the ceiling. -/
def c4body2 : JObj :=
  .cons "totalAmount" (.int 2000000) (.cons "quantity" (.int 1) (.cons "name" (.str "N")
  (.cons "email" (.str "E") (.cons "phone" (.str "P") (.cons "shipping" (.str "HOME")
  (.cons "payment" (.str "jkopay") (.cons "city" (.str "C") (.cons "district" (.str "D")
  (.cons "address" (.str "A1") .nil)))))))))

/-- A store-pickup (`shipping="7-11"`) request with `address` absent. -/
def c5body : JObj :=
  .cons "totalAmount" (.int 100) (.cons "quantity" (.int 1) (.cons "name" (.str "N")
  (.cons "email" (.str "E") (.cons "phone" (.str "P") (.cons "shipping" (.str "7-11")
  (.cons "payment" (.str "jkopay") (.cons "storeInfo" (.str "Store123") .nil)))))))

/-! ## Theorems -/

theorem jappend_nil : ∀ (a : JObj), jappend a .nil = a
  | .nil => rfl
  | .cons k v rest => by simp [jappend, jappend_nil rest]

theorem jappend_assoc : ∀ (a : JObj) (b c : JObj),
    jappend (jappend a b) c = jappend a (jappend b c)
  | .nil, _, _ => rfl
  | .cons k v rest, b, c => by simp [jappend, jappend_assoc rest b c]

theorem pushKey_eq_append : ∀ (a : JObj) (k : String) (v : JVal),
    pushKey a k v = jappend a (.cons k v .nil)
  | .nil, _, _ => rfl
  | .cons k' v' rest, k, v => by simp [pushKey, jappend, pushKey_eq_append rest k v]

theorem specCanonicalForm_eq_fold (m : JObj) :
    specCanonicalForm m = specFold m specCanonicalList := rfl

theorem orderedFields_eq_specList : orderedFields = specCanonicalList := rfl

theorem orderedFold_eq (m : JObj) (fs : List String) (acc : JObj) :
    fs.foldl (opStep m) acc = jappend acc (specFold m fs) := by
  induction fs generalizing acc with
  | nil => simp [specFold, jappend_nil]
  | cons f fs ih =>
    simp only [List.foldl_cons]
    rw [ih]
    cases h : lookupJ m f with
    | none => simp [opStep, specFold, hasKeyJ, h]
    | some v =>
      rw [show opStep m acc f = pushKey acc f v by simp [opStep, h],
        pushKey_eq_append, jappend_assoc]
      simp [specFold, hasKeyJ, h, jappend]

theorem orderedPayload_eq_specForm (m : JObj) :
    orderedPayload m = specCanonicalForm m := by
  have h := orderedFold_eq m orderedFields .nil
  simpa [orderedPayload, specCanonicalForm_eq_fold, orderedFields_eq_specList,
    jappend] using h

/-- C1: for every message given as a mapping and every secret key,
`generate_signature` returns exactly the lowercase-hex HMAC-SHA256 (secret
key UTF-8 encoded) of the UTF-8 bytes of the compact JSON serialization of
exactly the message's fields that appear in the fixed canonical list
`[store_id, platform_order_id, currency, total_price, final_price,
unredeem, valid_time, payment_type, escrow, products]`, in that order, all
other fields dropped. -/
theorem C1_sign_is_hmac_of_canonical_json (m : JObj) (k : String) :
    generate_signature (.obj m) k
      = some (hmacSha256Hex (utf8Bytes k)
          (utf8Bytes (dumps (.obj (specCanonicalForm m))))) := by
  simp [generate_signature, orderedPayload_eq_specForm]

theorem lookupJ_setKey_self : ∀ (m : JObj) (f : String) (v : JVal),
    lookupJ (setKey m f v) f = some v
  | .nil, f, v => by simp [setKey, lookupJ]
  | .cons k' v' rest, f, v => by
    by_cases h : k' = f
    · simp [setKey, h, lookupJ]
    · simp [setKey, h, lookupJ, lookupJ_setKey_self rest f v]

theorem lookupJ_setKey_ne : ∀ (m : JObj) (f g : String) (v : JVal), g ≠ f →
    lookupJ (setKey m f v) g = lookupJ m g
  | .nil, f, g, v, h => by simp [setKey, lookupJ, Ne.symm h]
  | .cons k' v' rest, f, g, v, h => by
    by_cases hk : k' = f
    · subst hk
      simp [setKey, lookupJ, Ne.symm h]
    · simp [setKey, hk, lookupJ, lookupJ_setKey_ne rest f g v h]

theorem specFold_congr (m1 m2 : JObj) (fs : List String)
    (h : ∀ g ∈ fs, lookupJ m1 g = lookupJ m2 g) :
    specFold m1 fs = specFold m2 fs := by
  induction fs with
  | nil => rfl
  | cons f fs ih =>
    have hf := h f (List.mem_cons_self f fs)
    have hrest := ih (fun g hg => h g (List.mem_cons_of_mem _ hg))
    simp only [specFold, List.filter_cons] at hrest ⊢
    rw [show hasKeyJ m1 f = hasKeyJ m2 f by simp [hasKeyJ, hf]]
    by_cases hk : hasKeyJ m2 f
    · simp [hk, hrest, hf]
    · simp [hk, hrest]

theorem lookupJ_specFold_none (m : JObj) (fs : List String) (f : String)
    (h : hasKeyJ m f = false) : lookupJ (specFold m fs) f = none := by
  induction fs with
  | nil => rfl
  | cons g fs ih =>
    simp only [specFold, List.filter_cons] at ih ⊢
    by_cases hk : hasKeyJ m g
    · have hgf : g ≠ f := fun hh => by simp [hh, h] at hk
      simp [hk, lookupJ, hgf, ih]
    · simp [hk, ih]

theorem lookupJ_specFold_mem (m : JObj) (fs : List String) (f : String)
    (hmem : f ∈ fs) (h : hasKeyJ m f = true) :
    lookupJ (specFold m fs) f = lookupJ m f := by
  induction fs with
  | nil => cases hmem
  | cons g fs ih =>
    simp only [specFold, List.filter_cons] at ih ⊢
    rcases List.mem_cons.mp hmem with hgf | htl
    · subst hgf
      obtain ⟨v, hv⟩ := Option.isSome_iff_exists.mp h
      simp [h, lookupJ, hv]
    · by_cases hk : hasKeyJ m g
      · by_cases hgf : g = f
        · subst hgf
          obtain ⟨v, hv⟩ := Option.isSome_iff_exists.mp h
          simp [hk, lookupJ, hv]
        · simp [hk, lookupJ, hgf, ih htl]
      · simp [hk, ih htl]

theorem lookupJ_orderedPayload (m : JObj) (f : String) (hf : f ∈ orderedFields) :
    lookupJ (orderedPayload m) f = lookupJ m f := by
  rw [orderedPayload_eq_specForm, specCanonicalForm_eq_fold]
  by_cases hk : hasKeyJ m f
  · exact lookupJ_specFold_mem m _ f (orderedFields_eq_specList ▸ hf) hk
  · rw [lookupJ_specFold_none m _ f (by simpa using hk)]
    simp [hasKeyJ, Option.isSome_iff_exists] at hk
    cases hlk : lookupJ m f with
    | none => rfl
    | some v => exact absurd hlk (hk v)

/-- C2 (amended): signing is deterministic; setting a field outside the
canonical list to any value leaves the digest unchanged; and setting a
canonical field to two different values yields two different canonical
payloads (the serialized, signed forms differ).  The digest itself cannot
separate *all* values of a canonical field — see `C2_counterexample`. -/
theorem C2_amended_determinism_and_sensitivity :
    (∀ (m : JObj) (k : String),
        generate_signature (.obj m) k = generate_signature (.obj m) k)
    ∧ (∀ (m : JObj) (k f : String) (v : JVal), f ∉ orderedFields →
        generate_signature (.obj (setKey m f v)) k = generate_signature (.obj m) k)
    ∧ (∀ (m : JObj) (f : String) (v v' : JVal), f ∈ orderedFields → v ≠ v' →
        orderedPayload (setKey m f v) ≠ orderedPayload (setKey m f v')) := by
  refine ⟨fun _ _ => rfl, fun m k f v hf => ?_, fun m f v v' hf hne => ?_⟩
  · have hOP : orderedPayload (setKey m f v) = orderedPayload m := by
      rw [orderedPayload_eq_specForm, orderedPayload_eq_specForm,
        specCanonicalForm_eq_fold, specCanonicalForm_eq_fold]
      refine specFold_congr _ _ _ (fun g hg => ?_)
      exact lookupJ_setKey_ne m f g v
        (fun hgf => hf (orderedFields_eq_specList ▸ (hgf ▸ hg)))
    simp [generate_signature, hOP]
  · intro hcontra
    have h1 : lookupJ (orderedPayload (setKey m f v)) f = some v := by
      rw [lookupJ_orderedPayload _ _ hf, lookupJ_setKey_self]
    have h2 : lookupJ (orderedPayload (setKey m f v')) f = some v' := by
      rw [lookupJ_orderedPayload _ _ hf, lookupJ_setKey_self]
    rw [hcontra, h2] at h1
    exact hne (Option.some.inj h1).symm

/-- C2 witness: a non-canonical field (`note`) does not change the digest,
and two values of the canonical field `total_price` give different
canonical payloads. -/
theorem C2_amended_witness :
    generate_signature
        (.obj (setKey (.cons "store_id" (.str "S1") .nil) "note" (.str "x"))) "sk"
      = generate_signature (.obj (.cons "store_id" (.str "S1") .nil)) "sk"
    ∧ orderedPayload (setKey (.cons "store_id" (.str "S1") .nil) "total_price" (.int 1))
      ≠ orderedPayload (setKey (.cons "store_id" (.str "S1") .nil) "total_price" (.int 2)) :=
  ⟨C2_amended_determinism_and_sensitivity.2.1 _ "sk" "note" (.str "x") (by decide),
   C2_amended_determinism_and_sensitivity.2.2 _ "total_price" (.int 1) (.int 2)
     (by decide) (by decide)⟩

theorem foldl_word_bound (ws : List Nat) (a B : Nat) (h : a < B) (hB : 0 < B) :
    ws.foldl (fun a w => a * M32 + w % M32) a < B * M32 ^ ws.length := by
  induction ws generalizing a B with
  | nil => simpa using h
  | cons w ws ih =>
    have hstep : a * M32 + w % M32 < B * M32 := by
      have h1 : w % M32 < M32 := Nat.mod_lt _ (by norm_num [M32])
      have h2 : a * M32 + w % M32 < (a + 1) * M32 := by
        rw [Nat.succ_mul]
        omega
      have h3 : (a + 1) * M32 ≤ B * M32 :=
        Nat.mul_le_mul_right _ (by omega)
      omega
    have := ih _ _ hstep (Nat.mul_pos hB (by norm_num [M32]))
    calc (w :: ws).foldl (fun a w => a * M32 + w % M32) a
        = ws.foldl (fun a w => a * M32 + w % M32) (a * M32 + w % M32) := rfl
      _ < B * M32 * M32 ^ ws.length := this
      _ = B * M32 ^ (ws.length + 1) := by ring
      _ = B * M32 ^ (w :: ws).length := by simp

theorem compressBlock_length (h b : List Nat) : (compressBlock h b).length = 8 := rfl

theorem foldl_compress_length (l : List Nat) (st : List Nat) (bs : Nat → List Nat)
    (h : st.length = 8) :
    (l.foldl (fun st i => compressBlock st (bs i)) st).length = 8 := by
  induction l generalizing st with
  | nil => exact h
  | cons i l ih => exact ih _ (compressBlock_length _ _)

theorem sha256Words_length (msg : List Nat) : (sha256Words msg).length = 8 :=
  foldl_compress_length (List.range ((padBytes msg).length / 64)) sha256H0
    (fun i => ((padBytes msg).drop (64 * i)).take 64) rfl

theorem sha256Nat_lt (msg : List Nat) : sha256Nat msg < 2 ^ 256 := by
  have h := foldl_word_bound (sha256Words msg) 0 1 one_pos one_pos
  rw [sha256Words_length] at h
  have : M32 ^ 8 = 2 ^ 256 := by norm_num [M32]
  simpa [sha256Nat, wordsToNat, this] using h

theorem hmacSha256Nat_lt (key msg : List Nat) : hmacSha256Nat key msg < 2 ^ 256 :=
  sha256Nat_lt _

/-- C2 counterexample: the claim's clause "changing any canonical field's
value changes the digest" is false — the digest space is finite, so at some
concrete message two distinct values of the canonical field `total_price`
must collide. -/
theorem C2_counterexample :
    ¬ ∀ (v v' : Int), v ≠ v' →
        generate_signature (.obj (setKey .nil "total_price" (.int v))) "secret"
          ≠ generate_signature (.obj (setKey .nil "total_price" (.int v'))) "secret" := by
  intro hAll
  obtain ⟨v, v', hne, heq⟩ := Finite.exists_ne_map_eq_of_infinite
    (fun v : Int =>
      (⟨hmacSha256Nat (utf8Bytes "secret")
          (utf8Bytes (dumps (.obj (orderedPayload (setKey .nil "total_price" (.int v)))))),
        hmacSha256Nat_lt _ _⟩ : Fin (2 ^ 256)))
  refine hAll v v' hne ?_
  have hval : hmacSha256Nat (utf8Bytes "secret")
      (utf8Bytes (dumps (.obj (orderedPayload (setKey .nil "total_price" (.int v))))))
      = hmacSha256Nat (utf8Bytes "secret")
      (utf8Bytes (dumps (.obj (orderedPayload (setKey .nil "total_price" (.int v')))))) :=
    congrArg Fin.val heq
  simp [generate_signature, hmacSha256Hex, hval]

theorem jarrToList_ofList : ∀ (l : List JVal), jarrToList (jarrOfList l) = l
  | [] => rfl
  | v :: rest => by simp [jarrOfList, jarrToList, jarrToList_ofList rest]

theorem priceOfItem_productItem (p : Int) : priceOfItem (productItem p) = p := rfl

theorem linePrices_eq (total qty : Int) :
    linePrices total qty = (List.range qty.toNat).map (productPrice total qty) := by
  unfold linePrices buildProducts
  rw [jarrToList_ofList, List.map_map]
  simp [Function.comp_def, priceOfItem_productItem]

theorem linePrices_split (total qty : Int) (hq : 0 < qty) :
    linePrices total qty
      = List.replicate (qty.toNat - 1) (Int.fdiv total qty)
        ++ [Int.fdiv total qty + Int.fmod total qty] := by
  rw [linePrices_eq]
  obtain ⟨k, hk⟩ : ∃ k, qty.toNat = k + 1 := ⟨qty.toNat - 1, by omega⟩
  have hcast : (qty.toNat : Int) = qty := Int.toNat_of_nonneg hq.le
  have hqk : (k : Int) = qty - 1 := by
    rw [← hcast, hk]
    push_cast
    ring
  rw [hk, List.range_succ, List.map_append]
  congr 1
  · have hrep : ∀ b ∈ (List.range k).map (productPrice total qty), b = Int.fdiv total qty := by
      intro b hb
      obtain ⟨i, hi, rfl⟩ := List.mem_map.mp hb
      have hik : i < k := List.mem_range.mp hi
      have hne : (i : Int) ≠ qty - 1 := by
        rw [← hqk]
        exact_mod_cast Nat.ne_of_lt hik
      simp [productPrice, hne]
    simp only [Nat.add_sub_cancel]
    exact List.eq_replicate_iff.mpr ⟨by simp, hrep⟩
  · simp [productPrice, hqk]

theorem filter_ne_replicate (n : Nat) (x : Int) :
    (List.replicate n x).filter (fun p => p ≠ x) = [] := by
  induction n with
  | zero => rfl
  | succ n ih => simp [List.replicate_succ, List.filter_cons, ih]

/-- C3: for strictly positive `totalAmount` and `quantity`, the pricing loop
produces exactly `quantity` line items, every item except the last priced at
`totalAmount fdiv quantity`, the last at `fdiv + fmod`, the prices summing
exactly to `totalAmount`, with at most one item differing from the base
price. -/
theorem C3_line_item_pricing (total qty : Int) (ht : 0 < total) (hq : 0 < qty) :
    (linePrices total qty).length = qty.toNat
    ∧ (∀ i : Nat, i + 1 < qty.toNat →
        (linePrices total qty).getD i 0 = Int.fdiv total qty)
    ∧ (linePrices total qty).getD (qty.toNat - 1) 0
        = Int.fdiv total qty + Int.fmod total qty
    ∧ (linePrices total qty).sum = total
    ∧ ((linePrices total qty).filter (fun p => p ≠ Int.fdiv total qty)).length ≤ 1 := by
  have hsplit := linePrices_split total qty hq
  have hcast : (qty.toNat : Int) = qty := Int.toNat_of_nonneg hq.le
  have hpos : 1 ≤ qty.toNat := by omega
  rw [hsplit]
  refine ⟨by simp [List.length_replicate]; omega, ?_, ?_, ?_, ?_⟩
  · intro i hi
    rw [List.getD_eq_getElem?_getD, List.getElem?_append_left (by simpa using by omega),
      List.getElem?_replicate]
    simp [Nat.lt_of_succ_lt_succ, show i < qty.toNat - 1 by omega]
  · rw [List.getD_eq_getElem?_getD, List.getElem?_append_right (by simp)]
    simp
  · rw [List.sum_append, List.sum_replicate, List.sum_cons, List.sum_nil]
    have h2 : qty * Int.fdiv total qty + Int.fmod total qty = total :=
      Int.fdiv_add_fmod total qty
    have hc : ((qty.toNat - 1 : Nat) : Int) = qty - 1 := by
      push_cast [hpos]
      omega
    calc ((qty.toNat - 1 : Nat)) • Int.fdiv total qty
            + (Int.fdiv total qty + Int.fmod total qty + 0)
        = ((qty.toNat - 1 : Nat) : Int) * Int.fdiv total qty
            + (Int.fdiv total qty + Int.fmod total qty) := by
          rw [nsmul_eq_mul]
          ring
      _ = (qty - 1) * Int.fdiv total qty + (Int.fdiv total qty + Int.fmod total qty) := by
          rw [hc]
      _ = qty * Int.fdiv total qty + Int.fmod total qty := by ring
      _ = total := h2
  · rw [List.filter_append, filter_ne_replicate]
    simp [List.filter_cons]
    split <;> simp

/-- C3 witness at `totalAmount = 100, quantity = 3`: the prices sum to 100
and are exactly `[33, 33, 34]`. -/
theorem C3_line_item_pricing_witness :
    (linePrices 100 3).sum = 100 ∧ linePrices 100 3 = [33, 33, 34] :=
  ⟨(C3_line_item_pricing 100 3 (by norm_num) (by norm_num)).2.2.2.1, by decide⟩

/-- C4 (amended): with all required fields present and truthy, (a) a
`totalAmount` or `quantity` that `int()` rejects lands in the catch-all
handler: HTTP 500 (server error), not a 400 validation error — and no
gateway call is made; (b) values parsing non-positive give 400
(`notPositive`) with no gateway call; (c) a positive `totalAmount` above
1,000,000 gives 400 (`overMax`) with no gateway call. -/
theorem C4_amended_validation (storeId secret baseUrl : String) (body : JObj)
    (pid vt : String) (gw : GwResp) (store : List JObj)
    (hm : missingFields body = []) :
    ((pyInt ((lookupJ body "totalAmount").getD .null) = none
        ∨ pyInt ((lookupJ body "quantity").getD .null) = none) →
      generate_payment storeId secret baseUrl body pid vt gw store
        = ⟨500, .error .serverError, false, none, store⟩)
    ∧ (∀ ta q : Int,
        pyInt ((lookupJ body "totalAmount").getD .null) = some ta →
        pyInt ((lookupJ body "quantity").getD .null) = some q →
        (ta ≤ 0 ∨ q ≤ 0) →
        generate_payment storeId secret baseUrl body pid vt gw store
          = ⟨400, .error .notPositive, false, none, store⟩)
    ∧ (∀ ta q : Int,
        pyInt ((lookupJ body "totalAmount").getD .null) = some ta →
        pyInt ((lookupJ body "quantity").getD .null) = some q →
        0 < ta → 0 < q → 1000000 < ta →
        generate_payment storeId secret baseUrl body pid vt gw store
          = ⟨400, .error .overMax, false, none, store⟩) := by
  refine ⟨fun hnone => ?_, fun ta q hta hq hle => ?_, fun ta q hta hq hta0 hq0 hmax => ?_⟩
  · rcases hnone with hnone | hnone
    · simp [generate_payment, hm, hnone]
    · cases hta : pyInt ((lookupJ body "totalAmount").getD .null) <;>
        simp [generate_payment, hm, hnone, hta]
  · simp [generate_payment, hm, hta, hq, if_pos hle]
  · have hnle : ¬ (ta ≤ 0 ∨ q ≤ 0) := by omega
    simp [generate_payment, hm, hta, hq, hnle, if_pos hmax]

/-- C4 counterexample: `c4body` has every required field present and truthy
but `totalAmount = "A"`, which does not parse as an integer; the endpoint
returns HTTP 500 (the catch-all server error) — not the 400 validation
error the claim asserts — and makes no gateway call. -/
theorem C4_counterexample :
    (generate_payment "S" "K" "B" c4body "PID" "VT" ⟨200, none⟩ []).status = 500
    ∧ (generate_payment "S" "K" "B" c4body "PID" "VT" ⟨200, none⟩ []).body
        = .error .serverError
    ∧ (generate_payment "S" "K" "B" c4body "PID" "VT" ⟨200, none⟩ []).gatewayCalled
        = false := by
  refine ⟨?_, ?_, ?_⟩ <;> decide

/-- C4 witness: `totalAmount = 2000000` (above the ceiling) gives a 400
validation error and no gateway call. -/
theorem C4_amended_witness :
    generate_payment "S" "K" "B" c4body2 "PID" "VT" ⟨200, none⟩ []
      = ⟨400, .error .overMax, false, none, []⟩ :=
  (C4_amended_validation "S" "K" "B" c4body2 "PID" "VT" ⟨200, none⟩ []
      (by decide)).2.2 2000000 1 (by decide) (by decide)
    (by norm_num) (by norm_num) (by norm_num)

/-- C5: the required-field set is chosen by the shipping discriminant
(`storeInfo` set when `shipping == "7-11"`, the city/district/address set
otherwise); a field is missing exactly when absent or falsy; and when the
missing list is non-empty the endpoint returns 400 carrying the complete
missing list, with no gateway call. -/
theorem C5_required_fields (storeId secret baseUrl : String) (body : JObj)
    (pid vt : String) (gw : GwResp) (store : List JObj) :
    (requiredFieldsFor body
      = if shippingIs711 body then
          ["totalAmount", "quantity", "name", "email", "phone", "shipping",
            "payment", "storeInfo", "address"]
        else
          ["totalAmount", "quantity", "name", "email", "phone", "shipping",
            "payment", "city", "district", "address"])
    ∧ (∀ f, f ∈ missingFields body ↔
        f ∈ requiredFieldsFor body
          ∧ (lookupJ body f = none
              ∨ ∃ v, lookupJ body f = some v ∧ pyTruthy v = false))
    ∧ (missingFields body ≠ [] →
        generate_payment storeId secret baseUrl body pid vt gw store
          = ⟨400, .error (.missingReq (missingFields body)), false, none, store⟩) := by
  refine ⟨by by_cases h : shippingIs711 body <;>
      simp [requiredFieldsFor, h, requiredFields711, requiredFieldsOther],
    fun f => ?_, fun hne => ?_⟩
  · rw [missingFields, List.mem_filter]
    constructor
    · rintro ⟨hmem, hcond⟩
      refine ⟨hmem, ?_⟩
      cases hlk : lookupJ body f with
      | none => exact Or.inl rfl
      | some v =>
        rw [hlk] at hcond
        simp only [Bool.not_eq_true'] at hcond
        exact Or.inr ⟨v, rfl, hcond⟩
    · rintro ⟨hmem, hcond⟩
      refine ⟨hmem, ?_⟩
      rcases hcond with hlk | ⟨v, hlk, hfv⟩
      · simp [hlk]
      · simp [hlk, hfv]
  · simp [generate_payment, hne]

/-- C5 witness: `shipping="7-11"` with `address` missing → 400 listing
exactly `address`, no gateway call. -/
theorem C5_required_fields_witness :
    generate_payment "S" "K" "B" c5body "PID" "VT" ⟨200, none⟩ []
      = ⟨400, .error (.missingReq ["address"]), false, none, []⟩ := by
  have hmf : missingFields c5body = ["address"] := by decide
  have h := (C5_required_fields "S" "K" "B" c5body "PID" "VT" ⟨200, none⟩ []).2.2
    (by rw [hmf]; simp)
  rw [hmf] at h
  exact h

/-! ### Store-scan lemmas for the callback handlers -/

theorem lookupJ_enrich_pid (o : JObj) (t : JVal) :
    lookupJ (enrich o t) "platform_order_id" = lookupJ o "platform_order_id" := by
  unfold enrich
  rw [lookupJ_setKey_ne _ _ _ _ (by decide), lookupJ_setKey_ne _ _ _ _ (by decide)]

theorem lookupJ_enrich_paymentMethod (o : JObj) (t : JVal) :
    lookupJ (enrich o t) "paymentMethod" = some (.str "jkopay") := by
  unfold enrich
  rw [lookupJ_setKey_ne _ _ _ _ (by decide), lookupJ_setKey_self]

theorem lookupJ_enrich_tradeNo (o : JObj) (t : JVal) :
    lookupJ (enrich o t) "tradeNo" = some t :=
  lookupJ_setKey_self _ _ _

theorem removeMatching_eq_filter (pid : JVal) :
    ∀ (store : List JObj), StrIds store →
      removeMatching store pid = .ok (store.filter (keepB pid))
  | [], _ => rfl
  | o :: rest, h => by
    obtain ⟨s, _, hlk⟩ := h o (List.mem_cons_self o rest)
    have hrest := removeMatching_eq_filter pid rest
      (fun o' ho' => h o' (List.mem_cons_of_mem _ ho'))
    by_cases hpe : pyEq (.str s) pid <;>
      simp [removeMatching, hlk, hrest, List.filter_cons, keepB, hpe]

theorem findOrder_filter_none (pid : JVal) :
    ∀ (store : List JObj), StrIds store →
      findOrder (store.filter (keepB pid)) pid = .ok none
  | [], _ => rfl
  | o :: rest, h => by
    obtain ⟨s, _, hlk⟩ := h o (List.mem_cons_self o rest)
    have hrest := findOrder_filter_none pid rest
      (fun o' ho' => h o' (List.mem_cons_of_mem _ ho'))
    by_cases hpe : pyEq (.str s) pid <;>
      simp [List.filter_cons, keepB, hlk, hpe, findOrder, hrest]

theorem replace_removeMatching (pid t : JVal) :
    ∀ (store : List JObj) (o : JObj), StrIds store →
      findOrder store pid = .ok (some o) →
      removeMatching (replaceFirstMatch store pid (enrich o t)) pid
        = .ok (store.filter (keepB pid))
  | [], o, _, hf => by simp [findOrder] at hf
  | x :: rest, o, h, hf => by
    obtain ⟨s, _, hlk⟩ := h x (List.mem_cons_self x rest)
    have hS' : StrIds rest := fun o' ho' => h o' (List.mem_cons_of_mem _ ho')
    by_cases hpe : pyEq (.str s) pid
    · have ho : x = o := by
        have := hf
        simp [findOrder, hlk, hpe] at this
        exact this
      subst ho
      simp [replaceFirstMatch, hlk, hpe, removeMatching, lookupJ_enrich_pid,
        removeMatching_eq_filter pid rest hS', List.filter_cons, keepB]
    · have hf' : findOrder rest pid = .ok (some o) := by
        simpa [findOrder, hlk, hpe] using hf
      have ih := replace_removeMatching pid t rest o hS' hf'
      simp [replaceFirstMatch, hlk, hpe, removeMatching, ih,
        List.filter_cons, keepB]

/-- The success path of `/result_url`, as one equation: enrich the first
matching order, call the sink once with it (whether or not the sink call
fails), remove every matching entry, answer success. -/
theorem result_url_success_eq (cb txm : JObj) (store : List JObj) (sf : Bool) (o : JObj)
    (htx : lookupJ cb "transaction" = some (.obj txm))
    (hS : StrIds store)
    (hpid : pyTruthy ((lookupJ txm "platform_order_id").getD .null) = true)
    (hfind : findOrder store ((lookupJ txm "platform_order_id").getD .null) = .ok (some o))
    (hst : pyEq ((lookupJ txm "status").getD .null) (.int 0) = true) :
    result_url cb store sf
      = ⟨200, statusMsgBody "success" "支付確認成功",
          store.filter (keepB ((lookupJ txm "platform_order_id").getD .null)),
          [enrich o ((lookupJ txm "tradeNo").getD .null)]⟩ := by
  have hrm := replace_removeMatching
    ((lookupJ txm "platform_order_id").getD .null)
    ((lookupJ txm "tradeNo").getD .null) store o hS hfind
  simp [result_url, htx, hpid, hfind, hst, hrm]

/-- The not-found path of `/result_url`. -/
theorem result_url_notfound_eq (cb txm : JObj) (store : List JObj) (sf : Bool)
    (htx : lookupJ cb "transaction" = some (.obj txm))
    (hpid : pyTruthy ((lookupJ txm "platform_order_id").getD .null) = true)
    (hnone : findOrder store ((lookupJ txm "platform_order_id").getD .null) = .ok none) :
    result_url cb store sf
      = ⟨404, statusMsgBody "error" "訂單未找到", store, []⟩ := by
  simp [result_url, htx, hpid, hnone]

/-- The failure-status path of `/result_url`. -/
theorem result_url_failstatus_eq (cb txm : JObj) (store : List JObj) (sf : Bool) (o : JObj)
    (htx : lookupJ cb "transaction" = some (.obj txm))
    (hpid : pyTruthy ((lookupJ txm "platform_order_id").getD .null) = true)
    (hfind : findOrder store ((lookupJ txm "platform_order_id").getD .null) = .ok (some o))
    (hst : pyEq ((lookupJ txm "status").getD .null) (.int 0) = false) :
    result_url cb store sf
      = ⟨400, statusMsgBody "error" "支付確認失敗", store, []⟩ := by
  simp [result_url, htx, hpid, hfind, hst]

theorem strIds_order1 : StrIds [order1] := by
  intro o ho
  rw [List.mem_singleton] at ho
  subst ho
  exact ⟨"ORDER_1", by decide, rfl⟩

/-- C6: a success-status callback whose identifier matches a stored order
attaches `tradeNo` and the payment-method tag, forwards the enriched order
to the sink exactly once, removes every matching store entry — whether or
not the sink call fails — and answers `{status: "success"}`. -/
theorem C6_success_finalization (cb txm : JObj) (store : List JObj) (sf : Bool) (o : JObj)
    (htx : lookupJ cb "transaction" = some (.obj txm))
    (hS : StrIds store)
    (hpid : pyTruthy ((lookupJ txm "platform_order_id").getD .null) = true)
    (hfind : findOrder store ((lookupJ txm "platform_order_id").getD .null) = .ok (some o))
    (hst : pyEq ((lookupJ txm "status").getD .null) (.int 0) = true) :
    result_url cb store sf
      = ⟨200, statusMsgBody "success" "支付確認成功",
          store.filter (keepB ((lookupJ txm "platform_order_id").getD .null)),
          [enrich o ((lookupJ txm "tradeNo").getD .null)]⟩
    ∧ lookupJ (enrich o ((lookupJ txm "tradeNo").getD .null)) "paymentMethod"
        = some (.str "jkopay")
    ∧ lookupJ (enrich o ((lookupJ txm "tradeNo").getD .null)) "tradeNo"
        = some ((lookupJ txm "tradeNo").getD .null) :=
  ⟨result_url_success_eq cb txm store sf o htx hS hpid hfind hst,
   lookupJ_enrich_paymentMethod o _, lookupJ_enrich_tradeNo o _⟩

/-- C6 witness: the success callback `cb6` on a store holding `ORDER_1`
removes the order, calls the sink once with the enriched order, and answers
success — also when the sink call fails. -/
theorem C6_success_finalization_witness :
    result_url cb6 [order1] true
      = ⟨200, statusMsgBody "success" "支付確認成功", [],
          [enrich order1 (.str "T1")]⟩
    ∧ result_url cb6 [order1] false
      = ⟨200, statusMsgBody "success" "支付確認成功", [],
          [enrich order1 (.str "T1")]⟩ :=
  ⟨((C6_success_finalization cb6 tx6 [order1] true order1 rfl strIds_order1
      rfl rfl rfl).1).trans (by decide),
   ((C6_success_finalization cb6 tx6 [order1] false order1 rfl strIds_order1
      rfl rfl rfl).1).trans (by decide)⟩

/-- C7: a callback whose status is not the success code but whose
identifier matches a stored order reports a confirmation failure (400), no
sink call is made, and the store is returned unchanged — the matched order
is neither removed nor mutated. -/
theorem C7_failure_leaves_store (cb txm : JObj) (store : List JObj) (sf : Bool) (o : JObj)
    (htx : lookupJ cb "transaction" = some (.obj txm))
    (hpid : pyTruthy ((lookupJ txm "platform_order_id").getD .null) = true)
    (hfind : findOrder store ((lookupJ txm "platform_order_id").getD .null) = .ok (some o))
    (hst : pyEq ((lookupJ txm "status").getD .null) (.int 0) = false) :
    result_url cb store sf
      = ⟨400, statusMsgBody "error" "支付確認失敗", store, []⟩ :=
  result_url_failstatus_eq cb txm store sf o htx hpid hfind hst

/-- C7 witness: failure status 3 for `ORDER_1` leaves the store as it was,
with no sink call. -/
theorem C7_failure_leaves_store_witness :
    result_url cb7 [order1] false
      = ⟨400, statusMsgBody "error" "支付確認失敗", [order1], []⟩ :=
  C7_failure_leaves_store cb7 tx7 [order1] false order1 rfl rfl rfl rfl

/-- C8: an identifier matching no live entry gets the 404
`{status:"error", message:"訂單未找到"}` answer with the store unchanged;
and after a successful finalization every matching entry is gone, so an
identical second callback gets that same 404. -/
theorem C8_notfound_idempotent (cb txm : JObj) (store : List JObj) (sf sf' : Bool) (o : JObj)
    (htx : lookupJ cb "transaction" = some (.obj txm))
    (hS : StrIds store)
    (hpid : pyTruthy ((lookupJ txm "platform_order_id").getD .null) = true) :
    (findOrder store ((lookupJ txm "platform_order_id").getD .null) = .ok none →
      result_url cb store sf
        = ⟨404, statusMsgBody "error" "訂單未找到", store, []⟩)
    ∧ (findOrder store ((lookupJ txm "platform_order_id").getD .null) = .ok (some o) →
       pyEq ((lookupJ txm "status").getD .null) (.int 0) = true →
        (∀ o' ∈ (result_url cb store sf).newOrders,
          keepB ((lookupJ txm "platform_order_id").getD .null) o' = true)
        ∧ result_url cb (result_url cb store sf).newOrders sf'
            = ⟨404, statusMsgBody "error" "訂單未找到",
                (result_url cb store sf).newOrders, []⟩) := by
  refine ⟨result_url_notfound_eq cb txm store sf htx hpid, fun hfind hst => ?_⟩
  have hsucc := result_url_success_eq cb txm store sf o htx hS hpid hfind hst
  have horders : (result_url cb store sf).newOrders
      = store.filter (keepB ((lookupJ txm "platform_order_id").getD .null)) := by
    rw [hsucc]
  refine ⟨fun o' ho' => ?_, ?_⟩
  · rw [horders] at ho'
    exact List.of_mem_filter ho'
  · rw [horders]
    exact result_url_notfound_eq cb txm _ sf' htx hpid
      (findOrder_filter_none _ store hS)

/-- C8 witness: the success callback on `[order1]` empties the store and an
identical second callback answers 404 `訂單未找到`; the same callback on an
empty store answers the same 404 directly. -/
theorem C8_notfound_idempotent_witness :
    result_url cb6 [] false
      = ⟨404, statusMsgBody "error" "訂單未找到", [], []⟩
    ∧ result_url cb6 (result_url cb6 [order1] false).newOrders false
      = ⟨404, statusMsgBody "error" "訂單未找到",
          (result_url cb6 [order1] false).newOrders, []⟩ :=
  ⟨(C8_notfound_idempotent cb6 tx6 [] false false order1 rfl
      (fun _ h => absurd h (List.not_mem_nil _)) rfl).1 rfl,
   ((C8_notfound_idempotent cb6 tx6 [order1] false false order1 rfl
      strIds_order1 rfl).2 rfl rfl).2⟩

theorem pyEq_str_falsy (s : String) (pid : JVal) (hs : s ≠ "")
    (hp : pyTruthy pid = false) : pyEq (.str s) pid = false := by
  cases pid with
  | null => rfl
  | bool b => rfl
  | int n => rfl
  | str t =>
    simp only [pyTruthy, decide_eq_false_iff_not, not_not] at hp
    simp [pyEq, hp, hs]
  | arr a => rfl
  | obj o => rfl

theorem resolves_falsy (pid : JVal) (hp : pyTruthy pid = false) :
    ∀ (store : List JObj), StrIds store → resolves store pid = false
  | [], _ => rfl
  | o :: rest, h => by
    obtain ⟨s, hs, hlk⟩ := h o (List.mem_cons_self o rest)
    have hrest := resolves_falsy pid hp rest
      (fun o' ho' => h o' (List.mem_cons_of_mem _ ho'))
    simp only [resolves, List.any_cons] at hrest ⊢
    simp [hlk, pyEq_str_falsy s pid hs hp, hrest]

theorem findOrder_ok (pid : JVal) :
    ∀ (store : List JObj), StrIds store → ∃ r, findOrder store pid = .ok r
  | [], _ => ⟨none, rfl⟩
  | o :: rest, h => by
    obtain ⟨s, _, hlk⟩ := h o (List.mem_cons_self o rest)
    by_cases hpe : pyEq (.str s) pid
    · exact ⟨some o, by simp [findOrder, hlk, hpe]⟩
    · obtain ⟨r, hr⟩ := findOrder_ok pid rest
        (fun o' ho' => h o' (List.mem_cons_of_mem _ ho'))
      exact ⟨r, by simp [findOrder, hlk, hpe, hr]⟩

theorem findOrder_none_iff (pid : JVal) :
    ∀ (store : List JObj), StrIds store →
      (findOrder store pid = .ok none ↔ resolves store pid = false)
  | [], _ => by simp [findOrder, resolves]
  | o :: rest, h => by
    obtain ⟨s, _, hlk⟩ := h o (List.mem_cons_self o rest)
    have ih := findOrder_none_iff pid rest
      (fun o' ho' => h o' (List.mem_cons_of_mem _ ho'))
    by_cases hpe : pyEq (.str s) pid <;>
      simp [findOrder, resolves, List.any_cons, hlk, hpe, ih]

/-- C9: on any reachable store, `/confirm_url` hands the store back
unchanged, answers `{valid: true}` (200) exactly when the payload's
identifier resolves to a stored order, 400 when the identifier is
missing/falsy, and 404 when no stored order matches. -/
theorem C9_confirm_frame (cb : JObj) (store : List JObj) (hS : StrIds store) :
    (confirm_url cb store).newOrders = store
    ∧ ((confirm_url cb store).status = 200
        ∧ (confirm_url cb store).body = validBody true
        ↔ resolves store ((lookupJ cb "platform_order_id").getD .null) = true)
    ∧ (pyTruthy ((lookupJ cb "platform_order_id").getD .null) = false →
        (confirm_url cb store).status = 400
        ∧ (confirm_url cb store).body = validBody false)
    ∧ (pyTruthy ((lookupJ cb "platform_order_id").getD .null) = true →
        resolves store ((lookupJ cb "platform_order_id").getD .null) = false →
        (confirm_url cb store).status = 404
        ∧ (confirm_url cb store).body = validBody false) := by
  by_cases hp : pyTruthy ((lookupJ cb "platform_order_id").getD .null) = true
  · obtain ⟨r, hr⟩ := findOrder_ok ((lookupJ cb "platform_order_id").getD .null) store hS
    cases r with
    | none =>
      have hres := (findOrder_none_iff _ store hS).mp hr
      have hval : confirm_url cb store = ⟨404, validBody false, store⟩ := by
        simp [confirm_url, hp, hr]
      rw [hval]
      refine ⟨rfl, by simp [hres, validBody], fun hcontra => ?_, fun _ _ => ⟨rfl, rfl⟩⟩
      rw [hp] at hcontra
      cases hcontra
    | some o =>
      have hres : resolves store ((lookupJ cb "platform_order_id").getD .null) = true := by
        cases hres0 : resolves store ((lookupJ cb "platform_order_id").getD .null)
        · have := (findOrder_none_iff _ store hS).mpr hres0
          rw [hr] at this
          cases this
        · rfl
      have hval : confirm_url cb store = ⟨200, validBody true, store⟩ := by
        simp [confirm_url, hp, hr]
      rw [hval]
      refine ⟨rfl, by simp [hres], fun hcontra => ?_, fun _ hcontra => ?_⟩
      · rw [hp] at hcontra
        cases hcontra
      · rw [hres] at hcontra
        cases hcontra
  · have hp' : pyTruthy ((lookupJ cb "platform_order_id").getD .null) = false := by
      simpa using hp
    have hres := resolves_falsy _ hp' store hS
    have hval : confirm_url cb store = ⟨400, validBody false, store⟩ := by
      simp [confirm_url, hp']
    rw [hval]
    refine ⟨rfl, by simp [hres, validBody], fun _ => ⟨rfl, rfl⟩, fun hcontra _ => ?_⟩
    rw [hp'] at hcontra
    cases hcontra

/-- C9 witness: a payload naming the stored `ORDER_1` gets `{valid: true}`
(200) and the store is handed back unchanged. -/
theorem C9_confirm_frame_witness :
    (confirm_url cb9 [order1]).newOrders = [order1]
    ∧ ((confirm_url cb9 [order1]).status = 200
        ∧ (confirm_url cb9 [order1]).body = validBody true) :=
  ⟨(C9_confirm_frame cb9 [order1] strIds_order1).1,
   (C9_confirm_frame cb9 [order1] strIds_order1).2.1.mpr (by decide)⟩

theorem pyEq_zero_iff (v : JVal) :
    pyEq v (.int 0) = true ↔ v = .int 0 ∨ v = .bool false := by
  cases v with
  | null => simp [pyEq]
  | bool b => cases b <;> simp [pyEq]
  | int n => simp [pyEq]
  | str s => simp [pyEq]
  | arr a => simp [pyEq]
  | obj o => simp [pyEq]

/-- C10 (amended): the `/result_url` success test is Python's numeric
`== 0`: within the modelled JSON values it accepts exactly the integer 0
and the boolean `false` (`False == 0` in Python); every other status value
— the string "0", a missing field (null), and all other shapes — takes the
failure branch with no sink call and no store change. -/
theorem C10_amended_strict_zero (cb txm : JObj) (store : List JObj) (sf : Bool) (o : JObj)
    (htx : lookupJ cb "transaction" = some (.obj txm))
    (hpid : pyTruthy ((lookupJ txm "platform_order_id").getD .null) = true)
    (hfind : findOrder store ((lookupJ txm "platform_order_id").getD .null)
      = .ok (some o)) :
    (pyEq ((lookupJ txm "status").getD .null) (.int 0) = true
      ↔ ((lookupJ txm "status").getD .null = .int 0
          ∨ (lookupJ txm "status").getD .null = .bool false))
    ∧ (∀ (st : JVal), (lookupJ txm "status").getD .null = st →
        st ≠ .int 0 → st ≠ .bool false →
        result_url cb store sf
          = ⟨400, statusMsgBody "error" "支付確認失敗", store, []⟩) := by
  refine ⟨pyEq_zero_iff _, fun st hst h0 hb => ?_⟩
  have hzero : pyEq st (.int 0) = false := by
    cases hpe : pyEq st (.int 0)
    · rfl
    · rcases (pyEq_zero_iff st).mp hpe with h | h
      · exact absurd h h0
      · exact absurd h hb
  exact result_url_failstatus_eq cb txm store sf o htx hpid hfind
    (by rw [hst]; exact hzero)

/-- C10 counterexample: the JSON boolean `false` is a value other than the
integer 0, yet (because Python evaluates `False == 0` as true) it takes the
finalization branch: the order is removed, the sink called once, success
answered — contradicting the claim that any non-integer-0 status takes the
failure branch. -/
theorem C10_counterexample :
    (JVal.bool false ≠ JVal.int 0)
    ∧ result_url cbF [order1] false
      = ⟨200, statusMsgBody "success" "支付確認成功", [],
          [enrich order1 (.str "T1")]⟩ :=
  ⟨by decide, by decide⟩

/-- C10 witness: status the string `"0"` takes the failure branch — no sink
call, store unchanged. -/
theorem C10_amended_witness :
    result_url cbS0 [order1] false
      = ⟨400, statusMsgBody "error" "支付確認失敗", [order1], []⟩ :=
  (C10_amended_strict_zero cbS0 txS0 [order1] false order1 rfl rfl rfl).2
    (.str "0") rfl (by decide) (by decide)

end JKPAY
